import Mathlib

/-!
Shallow embedding of the portfolio CMS backend (`src/main.py`, `src/schemas.py`).

Conventions of the embedding:
* Python `dict` documents become association lists `Doc` over a `Value` type;
  assignment keeps the position of an existing key and appends otherwise, and
  `pop` removes the (first) binding, exactly as a Python dict with unique keys.
* Times (`datetime.utcnow()`) are `Nat` timestamps in seconds, passed in
  explicitly as `now`.
* The external JWT library (`python-jose`) is modelled by a concrete reversible
  wire format: a token is four escaped, dot-terminated fields
  (subject, role, expiry digits, signature).  The HMAC signature is idealised
  as the signing secret itself, so signature verification is comparison with
  the verifier's secret; `jwt.decode` further rejects expired tokens, and any
  string that does not parse is a `JWTError` (returned as `none`).
* The external password hasher (passlib `CryptContext`) is idealised as an
  injective tagged function; `verify` succeeds exactly on the hashed password.
* `HTTPException` carries the status code and detail string; handlers return
  `Except HTTPException α`.
-/

namespace Portfolio

/-- A JSON-ish value stored in a document field.  `vOid` is a Mongo ObjectId
(whose `str()` is its hex string), `vTime` a datetime timestamp. -/
inductive Value where
  | vNull
  | vBool (b : Bool)
  | vInt (n : Int)
  | vStr (s : String)
  | vStrList (l : List String)
  | vTime (t : Nat)
  | vOid (hex : String)
deriving DecidableEq, Repr

/-- A Python dict document: ordered association list from field name to value. -/
abbrev Doc := List (String × Value)

/-- Lookup of a key in a document, like Python `dict.get`. -/
def dictGet : Doc → String → Option Value
  | [], _ => none
  | (k, v) :: d, key => if k = key then some v else dictGet d key

/-- Python dict assignment `d[key] = v`: replaces in place if the key exists,
otherwise appends at the end. -/
def dictInsert : Doc → String → Value → Doc
  | [], key, v => [(key, v)]
  | (k, w) :: d, key, v => if k = key then (k, v) :: d else (k, w) :: dictInsert d key v

/-- Python `d.pop(key, None)`: removes the binding of `key` (dicts hold each
key at most once, so removing the first occurrence is removal). -/
def dictErase : Doc → String → Doc
  | [], _ => []
  | (k, w) :: d, key => if k = key then d else (k, w) :: dictErase d key

/-- Number of bindings of a key in a document (1 or 0 for a real dict). -/
def countKey (d : Doc) (key : String) : Nat := (d.map Prod.fst).count key

/-- Python `str()` applied to a stored value.  Only the `vNull`, `vStr` and
`vOid` cases are exercised by the code under study (`str(it.get("_id"))`);
the remaining cases are plausible renderings. -/
def pyStr : Value → String
  | .vNull => "None"
  | .vBool b => if b then "True" else "False"
  | .vInt n => toString n
  | .vStr s => s
  | .vStrList l => toString l
  | .vTime t => toString t
  | .vOid hex => hex

/-- Python `str(it.get("_id"))`: an absent key yields `None`, so `"None"`. -/
def pyStrOpt : Option Value → String
  | none => "None"
  | some v => pyStr v

/-- The normalization applied by every list/get route (`main.py` 161-163,
171-173 etc.): `it["id"] = str(it.get("_id")); it.pop("_id", None)`. -/
def normalize (it : Doc) : Doc :=
  dictErase (dictInsert it "id" (Value.vStr (pyStrOpt (dictGet it "_id")))) "_id"

/-- Python `str.lower()` (ASCII suffices for the strings compared here). -/
def pyLower (s : String) : String := ⟨s.data.map Char.toLower⟩

/-- Python `str.startswith(pre)`. -/
def pyStartsWith (s pre : String) : Bool := pre.data.isPrefixOf s.data

/-- Everything after the first space of the list. -/
def afterFirstSpaceAux : List Char → List Char
  | [] => []
  | c :: cs => if c = ' ' then cs else afterFirstSpaceAux cs

/-- Python `s.split(" ", 1)[1]` — the part after the first space.  In the
source this is only evaluated under the guard that `s` starts (modulo case)
with `"bearer "`, so a space exists; absent a space we return `""`. -/
def splitAfterFirstSpace (s : String) : String := ⟨afterFirstSpaceAux s.data⟩

/-! ### The JWT wire format (model of `python-jose` encode/decode) -/

/-- Escape a field so that the dot delimiter can be recovered. -/
def escAux : List Char → List Char
  | [] => []
  | c :: cs => if c = '.' ∨ c = '\\' then '\\' :: c :: escAux cs else c :: escAux cs

/-- Parse one escaped field up to its dot delimiter, returning the field and
the remainder after the delimiter. -/
def parseField : List Char → Option (List Char × List Char)
  | [] => none
  | [c] => if c = '.' then some ([], []) else none
  | c :: c2 :: cs =>
    if c = '\\' then (parseField cs).map (fun p => (c2 :: p.1, p.2))
    else if c = '.' then some ([], c2 :: cs)
    else (parseField (c2 :: cs)).map (fun p => (c :: p.1, p.2))

/-- One escaped, dot-terminated field. -/
def fieldEnc (l : List Char) : List Char := escAux l ++ ['.']

/-- An optional string claim: `['0']` encodes an absent claim, `'1' :: s`
a present one. -/
def encodeOptField : Option String → List Char
  | none => ['0']
  | some s => '1' :: s.data

/-- Decode an optional string claim field. -/
def decodeOptField : List Char → Option (Option String)
  | ['0'] => some none
  | '1' :: cs => some (some (String.mk cs))
  | _ => none

/-- Base-10 digits of `n`, least significant first, with explicit fuel so the
definition is structural. -/
def toDigitsAux : Nat → Nat → List Nat
  | 0, _ => []
  | _ + 1, 0 => []
  | fuel + 1, n + 1 => (n + 1) % 10 :: toDigitsAux fuel ((n + 1) / 10)

/-- Base-10 digits of `n`, least significant first. -/
def toDigits10 (n : Nat) : List Nat := toDigitsAux n n

/-- Digit to character. -/
def digitChar (d : Nat) : Char := Char.ofNat (48 + d)

/-- Character to digit. -/
def charDigit (c : Char) : Nat := c.toNat - 48

/-- Render a `Nat` as digit characters (least significant first). -/
def encNat (n : Nat) : List Char := (toDigits10 n).map digitChar

/-- Read digit characters back into a `Nat`. -/
def decNat (l : List Char) : Nat := l.foldr (fun c acc => charDigit c + 10 * acc) 0

/-- Decoded token claims: `payload.get("sub")`, `payload.get("role")` and the
expiry timestamp (every token issued by this system carries `exp`). -/
structure Claims where
  sub : Option String
  role : Option String
  exp : Nat
deriving DecidableEq, Repr

/-- Model of `jwt.encode(claims, secret, HS256)`: the four fields in
sequence; the signature field is the idealised HMAC, i.e. the secret. -/
def jwt_encode (c : Claims) (secret : String) : String :=
  ⟨fieldEnc (encodeOptField c.sub) ++ fieldEnc (encodeOptField c.role) ++
    fieldEnc (encNat c.exp) ++ fieldEnc secret.data⟩

/-- Parse a token string into claims and its signature field. -/
def parseToken (l : List Char) : Option (Claims × String) :=
  (parseField l).bind fun p1 =>
  (decodeOptField p1.1).bind fun sub =>
  (parseField p1.2).bind fun p2 =>
  (decodeOptField p2.1).bind fun role =>
  (parseField p2.2).bind fun p3 =>
  (parseField p3.2).bind fun p4 =>
  if p4.2 = [] then some ({ sub := sub, role := role, exp := decNat p3.1 }, String.mk p4.1)
  else none

/-- Model of `jwt.decode(token, secret, [HS256])`: `none` is the `JWTError`
outcome — the token does not parse, its signature does not verify against
`secret`, or its expiry has passed (`exp < now`); `python-jose` raises the
same `JWTError` base class for all three. -/
def jwt_decode (token secret : String) (now : Nat) : Option Claims :=
  match parseToken token.data with
  | none => none
  | some (c, sig) => if sig = secret then (if c.exp < now then none else some c) else none

/-! ### Configuration (`main.py` 16-26) -/

/-- The process environment: the four variables read at startup
(`os.getenv` yields `none` when unset). -/
structure Env where
  jwt_secret : Option String := none
  admin_email : Option String := none
  admin_password_hash : Option String := none
  admin_password : Option String := none

/-- Modelled from the spec: the Credential Verifier's hash function (passlib
`CryptContext(schemes=["pbkdf2_sha256"])`, an external library) is idealised
as an injective, collision-free digest: §4.1 "recomputes the hash
deterministically over the candidate … and returns whether they match". -/
def pwd_hash (p : String) : String := "pbkdf2_sha256$" ++ p

/-- Source `verify_password` (`main.py` 105-106), delegating to the idealised
hasher: true exactly when `hashed` is the digest of `plain`. -/
def verify_password (plain hashed : String) : Bool := pwd_hash plain = hashed

/-- `SECRET_KEY = os.getenv("JWT_SECRET", "super-secret-key-change")`. -/
def SECRET_KEY (env : Env) : String := env.jwt_secret.getD "super-secret-key-change"

/-- `ACCESS_TOKEN_EXPIRE_MINUTES = 60 * 12`. -/
def ACCESS_TOKEN_EXPIRE_MINUTES : Nat := 60 * 12

/-- `ADMIN_EMAIL = os.getenv("ADMIN_EMAIL", "admin@portfolio.dev")`. -/
def ADMIN_EMAIL (env : Env) : String := env.admin_email.getD "admin@portfolio.dev"

/-- `ADMIN_PASSWORD_HASH = os.getenv("ADMIN_PASSWORD_HASH") or
pwd_context.hash(os.getenv("ADMIN_PASSWORD", "admin123"))` — note Python `or`
treats the empty string as falsy. -/
def ADMIN_PASSWORD_HASH (env : Env) : String :=
  match env.admin_password_hash with
  | some h => if h = "" then pwd_hash (env.admin_password.getD "admin123") else h
  | none => pwd_hash (env.admin_password.getD "admin123")

/-- The default configuration: no environment variables set. -/
def defaultEnv : Env := {}

/-- Response model `Token` (`main.py` 28-30). -/
structure Token where
  access_token : String
  token_type : String := "bearer"
deriving DecidableEq, Repr

/-- Request model `LoginRequest` (`main.py` 32-34). -/
structure LoginRequest where
  email : String
  password : String

/-- The claim dict passed to `create_access_token` (`{"sub": …, "role": …}`). -/
structure TokenData where
  sub : Option String
  role : Option String

/-- `HTTPException(status_code, detail)`. -/
structure HTTPException where
  status_code : Nat
  detail : String
deriving DecidableEq, Repr

/-- The identity dict returned by the gate: `{"email": email, "role": role}`
with the raw (possibly absent) payload values. -/
structure AdminIdent where
  email : Option String
  role : Option String
deriving DecidableEq, Repr

/-- Source `create_access_token` (`main.py` 109-113): expiry is
`utcnow() + (expires_delta or timedelta(minutes=ACCESS_TOKEN_EXPIRE_MINUTES))`
(a zero `timedelta` is falsy in Python, hence the `d = 0` case), measured in
seconds. -/
def create_access_token (env : Env) (data : TokenData) (now : Nat)
    (expires_delta : Option Nat := none) : String :=
  let expire := now +
    (match expires_delta with
     | some d => if d = 0 then ACCESS_TOKEN_EXPIRE_MINUTES * 60 else d
     | none => ACCESS_TOKEN_EXPIRE_MINUTES * 60)
  jwt_encode { sub := data.sub, role := data.role, exp := expire } (SECRET_KEY env)

/-- Source `login` (`main.py` 149-154). -/
def login (env : Env) (data : LoginRequest) (now : Nat) : Except HTTPException Token :=
  if pyLower data.email ≠ pyLower (ADMIN_EMAIL env) ∨
      verify_password data.password (ADMIN_PASSWORD_HASH env) = false then
    .error ⟨401, "Invalid credentials"⟩
  else
    .ok { access_token := create_access_token env ⟨some (ADMIN_EMAIL env), some "admin"⟩ now }

/-- Source `get_current_admin` (`main.py` 116-128).  Python's
`not authorization` is true for both `None` and `""`; the `split(" ", 1)[1]`
is reached only when the case-insensitive `"bearer "` check passed, so a
space exists.  The 403 raised inside the `try` block is not a `JWTError` and
propagates. -/
def get_current_admin (env : Env) (authorization : Option String) (now : Nat) :
    Except HTTPException AdminIdent :=
  match authorization with
  | none => .error ⟨401, "Not authenticated"⟩
  | some au =>
    if au = "" ∨ ¬ pyStartsWith (pyLower au) "bearer " = true then
      .error ⟨401, "Not authenticated"⟩
    else
      let token := splitAfterFirstSpace au
      match jwt_decode token (SECRET_KEY env) now with
      | none => .error ⟨401, "Invalid token"⟩
      | some payload =>
        if payload.sub ≠ some (ADMIN_EMAIL env) ∨ payload.role ≠ some "admin" then
          .error ⟨403, "Forbidden"⟩
        else
          .ok ⟨payload.sub, payload.role⟩

/-! ### The document store and the routes that use it

The `database` module (`db`, `get_documents`, `create_document`) is not part
of the sources under study; per the spec (§2) it is "a generic persistent
collection keyed by collection name, supporting insert, find-by-filter,
find-one-and-update, delete-one", and is modelled from those words below.
-/

/-- Modelled from the spec: the Document Store — "a generic persistent
collection keyed by collection name" (§2).  A mapping from collection name to
its list of documents, in insertion order. -/
structure Store where
  collections : List (String × List Doc)

/-- Modelled from the spec: the documents of one named collection (an unknown
collection is empty). -/
def getColl (st : Store) (name : String) : List Doc :=
  (st.collections.lookup name).getD []

/-- Modelled from the spec: replace the contents of one collection. -/
def setColl (st : Store) (name : String) (docs : List Doc) : Store :=
  ⟨(name, docs) :: st.collections.eraseP (fun kv => kv.1 == name)⟩

/-- A document matches a Mongo-style equality filter when every filter field
is present with the same value. -/
def docMatches (d : Doc) (filt : Doc) : Bool :=
  filt.all (fun kv => dictGet d kv.1 == some kv.2)

/-- Modelled from the spec: `get_documents(collection, filter=None)` —
"find-by-filter" (§2), returning the collection's documents that match the
filter, in stored order. -/
def get_documents (st : Store) (coll : String) (filt : Option Doc := none) : List Doc :=
  match filt with
  | none => getColl st coll
  | some f => (getColl st coll).filter (fun d => docMatches d f)

/-- Modelled from the spec: `create_document(collection, model)` — "insert"
(§2) of the model's dump with "a store-assigned unique identifier" (§3); the
assigned ObjectId hex `oid` is passed in explicitly.  Returns the id and the
new store. -/
def create_document (st : Store) (coll : String) (dump : Doc) (oid : String) :
    String × Store :=
  (oid, setColl st coll (getColl st coll ++ [dictInsert dump "_id" (Value.vOid oid)]))

/-- Mongo update document `{"$set": dump, "$currentDate": {"updated_at": true}}`
applied to one document. -/
def applyUpdate (d : Doc) (dump : Doc) (now : Nat) : Doc :=
  dictInsert (dump.foldl (fun acc kv => dictInsert acc kv.1 kv.2) d) "updated_at" (Value.vTime now)

/-- Modelled from the spec: "find-one-and-update" (§2) on a list of documents —
update the first match in place, returning the updated document
(`return_document=True`). -/
def updateFirst (docs : List Doc) (filt dump : Doc) (now : Nat) :
    Option Doc × List Doc :=
  match docs with
  | [] => (none, [])
  | d :: ds =>
    if docMatches d filt then (some (applyUpdate d dump now), applyUpdate d dump now :: ds)
    else
      let r := updateFirst ds filt dump now
      (r.1, d :: r.2)

/-- Modelled from the spec: "delete-one" (§2) — remove the first match,
returning `deleted_count` (0 or 1). -/
def deleteFirst (docs : List Doc) (filt : Doc) : Nat × List Doc :=
  match docs with
  | [] => (0, [])
  | d :: ds =>
    if docMatches d filt then (1, ds)
    else
      let r := deleteFirst ds filt
      (r.1, d :: r.2)

/-- Request model `Project` (`main.py` 45-63). -/
structure Project where
  title : String
  slug : String
  summary : String
  tags : List String := []
  tech : List String := []
  cover : Option String := none
  logo : Option String := none
  demo_url : Option String := none
  repo_url : Option String := none
  tldr : Option String := none
  role : Option String := none
  timeline : Option String := none
  wireframes : List String := []
  screenshots : List String := []
  video : Option String := none
  mermaid : Option String := none
  learnings : List String := []
  kpis : List String := []

/-- An optional string field of a pydantic model, as a stored value. -/
def optVal : Option String → Value
  | none => Value.vNull
  | some s => Value.vStr s

/-- `project.model_dump()`: the document submitted to the store. -/
def Project.model_dump (p : Project) : Doc :=
  [("title", Value.vStr p.title), ("slug", Value.vStr p.slug),
   ("summary", Value.vStr p.summary), ("tags", Value.vStrList p.tags),
   ("tech", Value.vStrList p.tech), ("cover", optVal p.cover),
   ("logo", optVal p.logo), ("demo_url", optVal p.demo_url),
   ("repo_url", optVal p.repo_url), ("tldr", optVal p.tldr),
   ("role", optVal p.role), ("timeline", optVal p.timeline),
   ("wireframes", Value.vStrList p.wireframes),
   ("screenshots", Value.vStrList p.screenshots), ("video", optVal p.video),
   ("mermaid", optVal p.mermaid), ("learnings", Value.vStrList p.learnings),
   ("kpis", Value.vStrList p.kpis)]

/-- Source `list_projects` (`main.py` 157-164): with no store configured the
items default to `[]`; each item is normalized.  The route body raises no
exception (the `Except` type is shared with the other handlers). -/
def list_projects (db : Option Store) : Except HTTPException (List Doc) :=
  .ok ((match db with
        | some st => get_documents st "project"
        | none => []).map normalize)

/-- Source `get_project` (`main.py` 166-174): find by slug, 404 when nothing
matches, otherwise normalize the first match. -/
def get_project (db : Option Store) (slug : String) : Except HTTPException Doc :=
  let items := match db with
    | some st => get_documents st "project" (some [("slug", Value.vStr slug)])
    | none => []
  match items with
  | [] => .error ⟨404, "Not found"⟩
  | it :: _ => .ok (normalize it)

/-- Source `create_project` (`main.py` 176-179): the Auth Gate dependency runs
first; the handler then inserts the dump and answers `{"id": _id}`.  The
no-store outcome of `create_document` is modelled from the spec (§7:
"`StoreUnavailable` (no backing store configured) → 500"). -/
def create_project (env : Env) (db : Option Store) (authorization : Option String)
    (now : Nat) (project : Project) (oid : String) :
    Except HTTPException Doc × Option Store :=
  match get_current_admin env authorization now with
  | .error e => (.error e, db)
  | .ok _ =>
    match db with
    | none => (.error ⟨500, "Database not available"⟩, none)
    | some st =>
      let r := create_document st "project" project.model_dump oid
      (.ok [("id", Value.vStr r.1)], some r.2)

/-- Source `update_project` (`main.py` 181-188): gate, then explicit 500 when
no store, then `find_one_and_update` by slug with `$set` + `$currentDate`,
404 when nothing matched, else `{"ok": true}`. -/
def update_project (env : Env) (db : Option Store) (authorization : Option String)
    (now : Nat) (slug : String) (project : Project) :
    Except HTTPException Doc × Option Store :=
  match get_current_admin env authorization now with
  | .error e => (.error e, db)
  | .ok _ =>
    match db with
    | none => (.error ⟨500, "Database not available"⟩, none)
    | some st =>
      let r := updateFirst (getColl st "project") [("slug", Value.vStr slug)]
        project.model_dump now
      match r.1 with
      | none => (.error ⟨404, "Not found"⟩, some (setColl st "project" r.2))
      | some _ => (.ok [("ok", Value.vBool true)], some (setColl st "project" r.2))

/-- Source `delete_project` (`main.py` 190-195): gate, explicit 500 when no
store, then `delete_one` by slug and `{"deleted": deleted_count}` (no error
for a missing slug). -/
def delete_project (env : Env) (db : Option Store) (authorization : Option String)
    (now : Nat) (slug : String) :
    Except HTTPException Doc × Option Store :=
  match get_current_admin env authorization now with
  | .error e => (.error e, db)
  | .ok _ =>
    match db with
    | none => (.error ⟨500, "Database not available"⟩, none)
    | some st =>
      let r := deleteFirst (getColl st "project") [("slug", Value.vStr slug)]
      (.ok [("deleted", Value.vInt r.1)], some (setColl st "project" r.2))

/-- The sort key of `list_posts`: `x.get("created_at", datetime.utcnow())`.
A document missing `created_at` is keyed by the current time (the source
calls `utcnow()` per evaluation; the model uses the single instant `now`).
A non-datetime `created_at` would make the Python comparison raise; the
theorems about this route assume `created_at`, when present, is a datetime. -/
def createdAtKey (now : Nat) (x : Doc) : Nat :=
  match dictGet x "created_at" with
  | some (Value.vTime t) => t
  | _ => now

/-- A well-typed `created_at` field: absent, or an actual datetime (anything
else would make the Python sort comparison raise a TypeError). -/
def isTimeOpt : Option Value → Bool
  | none => true
  | some (Value.vTime _) => true
  | some _ => false

/-- Source `list_posts` (`main.py` 212-220): normalize, then
`items.sort(key=…, reverse=True)` — Python's stable sort in descending key
order, whose output is exactly that of a stable insertion sort inserting
earlier elements before later ones of equal key — then the first three. -/
def list_posts (db : Option Store) (now : Nat) : List Doc :=
  let items := (match db with
    | some st => get_documents st "blogpost"
    | none => []).map normalize
  (List.insertionSort (fun a b => createdAtKey now b ≤ createdAtKey now a) items).take 3

/-! ### Infrastructure lemmas -/

theorem digit_roundtrip (d : Nat) (hd : d < 10) : charDigit (digitChar d) = d := by
  interval_cases d <;> rfl

theorem decNat_encNat_aux :
    ∀ fuel n, n ≤ fuel → decNat ((toDigitsAux fuel n).map digitChar) = n := by
  intro fuel
  induction fuel with
  | zero => intro n hn; interval_cases n; rfl
  | succ fuel ih =>
    intro n hn
    match n with
    | 0 => rfl
    | n + 1 =>
      have hdiv : (n + 1) / 10 ≤ fuel := by
        have := Nat.div_lt_self (Nat.succ_pos n) (by norm_num : 1 < 10)
        omega
      simp only [toDigitsAux, List.map_cons, decNat, List.foldr_cons]
      have h1 : charDigit (digitChar ((n + 1) % 10)) = (n + 1) % 10 :=
        digit_roundtrip _ (Nat.mod_lt _ (by norm_num))
      have h2 : decNat ((toDigitsAux fuel ((n + 1) / 10)).map digitChar) = (n + 1) / 10 :=
        ih _ hdiv
      simp only [decNat] at h2
      rw [h1, h2, Nat.add_comm, Nat.div_add_mod]

theorem decNat_encNat (n : Nat) : decNat (encNat n) = n :=
  decNat_encNat_aux n n (Nat.le_refl n)

theorem parseField_fieldEnc (l rest : List Char) :
    parseField (fieldEnc l ++ rest) = some (l, rest) := by
  induction l with
  | nil =>
    show parseField ('.' :: rest) = some ([], rest)
    cases rest with
    | nil => simp [parseField]
    | cons a as => simp [parseField]
  | cons c cs ih =>
    by_cases hc : c = '.' ∨ c = '\\'
    · have h1 : fieldEnc (c :: cs) ++ rest = '\\' :: c :: (fieldEnc cs ++ rest) := by
        simp [fieldEnc, escAux, hc, List.append_assoc]
      rw [h1]
      have h2 : parseField ('\\' :: c :: (fieldEnc cs ++ rest)) =
          (parseField (fieldEnc cs ++ rest)).map (fun p => (c :: p.1, p.2)) := by
        simp [parseField]
      rw [h2, ih]
      rfl
    · push_neg at hc
      have h1 : fieldEnc (c :: cs) ++ rest = c :: (fieldEnc cs ++ rest) := by
        simp [fieldEnc, escAux, hc.1, hc.2, List.append_assoc]
      rw [h1]
      have hsh : ∃ a as, fieldEnc cs ++ rest = a :: as := by
        cases h : fieldEnc cs ++ rest with
        | nil =>
          exfalso
          have : ([] : List Char).length = (fieldEnc cs ++ rest).length := by rw [h]
          simp [fieldEnc] at this
          omega
        | cons a as => exact ⟨a, as, rfl⟩
      obtain ⟨a, as, h2⟩ := hsh
      rw [h2]
      have h3 : parseField (c :: a :: as) =
          (parseField (a :: as)).map (fun p => (c :: p.1, p.2)) := by
        simp [parseField, hc.1, hc.2]
      rw [h3, ← h2, ih]
      rfl

theorem decodeOptField_encodeOptField (o : Option String) :
    decodeOptField (encodeOptField o) = some o := by
  cases o with
  | none => rfl
  | some s => rfl

theorem parseToken_jwt_encode (c : Claims) (secret : String) :
    parseToken (jwt_encode c secret).data = some (c, secret) := by
  have hdata : (jwt_encode c secret).data =
      fieldEnc (encodeOptField c.sub) ++ (fieldEnc (encodeOptField c.role) ++
        (fieldEnc (encNat c.exp) ++ (fieldEnc secret.data ++ []))) := by
    simp [jwt_encode, List.append_assoc]
  have h4 : parseField (fieldEnc secret.data) = some (secret.data, []) := by
    simpa using parseField_fieldEnc secret.data []
  rw [parseToken, hdata, parseField_fieldEnc]
  simp [parseField_fieldEnc, decodeOptField_encodeOptField, decNat_encNat, h4]

theorem jwt_decode_jwt_encode (c : Claims) (secret : String) (now : Nat) :
    jwt_decode (jwt_encode c secret) secret now =
      if c.exp < now then none else some c := by
  rw [jwt_decode, parseToken_jwt_encode]
  simp

theorem jwt_decode_wrong_secret (c : Claims) (secret secret2 : String)
    (h : secret ≠ secret2) (now : Nat) :
    jwt_decode (jwt_encode c secret) secret2 now = none := by
  rw [jwt_decode, parseToken_jwt_encode]
  simp [h]

theorem bearer_append_data (t : String) :
    ("Bearer " ++ t).data = 'B' :: 'e' :: 'a' :: 'r' :: 'e' :: 'r' :: ' ' :: t.data := rfl

theorem bearer_append_ne_empty (t : String) : ("Bearer " ++ t) ≠ "" := by
  intro h
  have := congrArg String.data h
  rw [bearer_append_data] at this
  simp [String.data] at this

theorem pyStartsWith_bearer (t : String) :
    pyStartsWith (pyLower ("Bearer " ++ t)) "bearer " = true := by
  show List.isPrefixOf "bearer ".data (("Bearer " ++ t).data.map Char.toLower) = true
  rw [bearer_append_data]
  simp [List.isPrefixOf]

theorem splitAfterFirstSpace_bearer (t : String) :
    splitAfterFirstSpace ("Bearer " ++ t) = t := rfl

/-- Header processing of the Auth Gate on a well-formed `Bearer` header: the
result is fully determined by `jwt.decode` of the carried token. -/
theorem get_current_admin_bearer (env : Env) (t : String) (now : Nat) :
    get_current_admin env (some ("Bearer " ++ t)) now =
      match jwt_decode t (SECRET_KEY env) now with
      | none => .error ⟨401, "Invalid token"⟩
      | some payload =>
        if payload.sub ≠ some (ADMIN_EMAIL env) ∨ payload.role ≠ some "admin" then
          .error ⟨403, "Forbidden"⟩
        else
          .ok ⟨payload.sub, payload.role⟩ := by
  rw [get_current_admin]
  rw [if_neg (by
    push_neg
    exact ⟨bearer_append_ne_empty t, by rw [pyStartsWith_bearer]⟩)]
  rw [splitAfterFirstSpace_bearer]

theorem dictGet_dictInsert_self (d : Doc) (k : String) (v : Value) :
    dictGet (dictInsert d k v) k = some v := by
  induction d with
  | nil => simp [dictInsert, dictGet]
  | cons kv d ih =>
    obtain ⟨k', w⟩ := kv
    by_cases h : k' = k
    · subst h
      simp [dictInsert, dictGet]
    · simp [dictInsert, dictGet, h, ih]

theorem dictGet_dictInsert_ne (d : Doc) (k k' : String) (v : Value) (h : k' ≠ k) :
    dictGet (dictInsert d k v) k' = dictGet d k' := by
  induction d with
  | nil => simp [dictInsert, dictGet, Ne.symm h]
  | cons kv d ih =>
    obtain ⟨k1, w⟩ := kv
    by_cases h1 : k1 = k
    · subst h1
      simp [dictInsert, dictGet, Ne.symm h]
    · by_cases h2 : k1 = k'
      · subst h2
        simp [dictInsert, dictGet, h1]
      · simp [dictInsert, dictGet, h1, h2, ih]

theorem dictGet_dictErase_ne (d : Doc) (k k' : String) (h : k' ≠ k) :
    dictGet (dictErase d k) k' = dictGet d k' := by
  induction d with
  | nil => simp [dictErase]
  | cons kv d ih =>
    obtain ⟨k1, w⟩ := kv
    by_cases h1 : k1 = k
    · subst h1
      simp [dictErase, dictGet, Ne.symm h]
    · by_cases h2 : k1 = k'
      · subst h2
        simp [dictErase, dictGet, h1]
      · simp [dictErase, dictGet, h1, h2, ih]

theorem countKey_eq_zero (d : Doc) (k : String) (h : dictGet d k = none) :
    countKey d k = 0 := by
  induction d with
  | nil => simp [countKey]
  | cons kv d ih =>
    obtain ⟨k1, w⟩ := kv
    by_cases h1 : k1 = k
    · subst h1
      simp [dictGet] at h
    · simp [dictGet, h1] at h
      have := ih h
      simpa [countKey, List.count_cons, h1] using this

theorem dictGet_eq_none_of_countKey_zero (d : Doc) (k : String) (h : countKey d k = 0) :
    dictGet d k = none := by
  induction d with
  | nil => simp [dictGet]
  | cons kv d ih =>
    obtain ⟨k1, w⟩ := kv
    simp only [countKey, List.map_cons, List.count_cons] at h
    by_cases h1 : k1 = k
    · subst h1
      simp at h
    · simp [h1] at h
      simp [dictGet, h1]
      exact ih h

theorem dictGet_dictErase_self (d : Doc) (k : String) (h : countKey d k ≤ 1) :
    dictGet (dictErase d k) k = none := by
  induction d with
  | nil => simp [dictErase, dictGet]
  | cons kv d ih =>
    obtain ⟨k1, w⟩ := kv
    by_cases h1 : k1 = k
    · subst h1
      simp only [countKey, List.map_cons, List.count_cons_self] at h
      have h0 : countKey d k1 = 0 := by
        simp only [countKey]
        omega
      simp [dictErase]
      exact dictGet_eq_none_of_countKey_zero d k1 h0
    · simp only [countKey, List.map_cons, List.count_cons] at h
      simp [h1] at h
      simp [dictErase, dictGet, h1]
      exact ih (by simpa [countKey] using h)

theorem countKey_dictInsert_ne (d : Doc) (k k' : String) (v : Value) (h : k' ≠ k) :
    countKey (dictInsert d k' v) k = countKey d k := by
  induction d with
  | nil => simp [dictInsert, countKey, List.count_cons, h]
  | cons kv d ih =>
    obtain ⟨k1, w⟩ := kv
    by_cases h1 : k1 = k'
    · subst h1
      simp [dictInsert, countKey, List.count_cons]
    · simp only [dictInsert, h1, if_false]
      simp only [countKey, List.map_cons, List.count_cons] at ih ⊢
      omega

/-! Facts about `normalize` shared by several route theorems. -/

theorem normalize_get_other (d : Doc) (k : String) (h1 : k ≠ "id") (h2 : k ≠ "_id") :
    dictGet (normalize d) k = dictGet d k := by
  rw [normalize, dictGet_dictErase_ne _ _ _ h2, dictGet_dictInsert_ne _ _ _ _ h1]

theorem normalize_get_id (d : Doc) :
    dictGet (normalize d) "id" = some (Value.vStr (pyStrOpt (dictGet d "_id"))) := by
  rw [normalize, dictGet_dictErase_ne _ _ _ (by decide), dictGet_dictInsert_self]

theorem normalize_no_internal_id (d : Doc) (h : countKey d "_id" ≤ 1) :
    dictGet (normalize d) "_id" = none := by
  rw [normalize]
  apply dictGet_dictErase_self
  rw [countKey_dictInsert_ne _ _ _ _ (by decide)]
  exact h

/-! ### Claim theorems -/

/-- C1: For all valid admin credentials, `login` returns a signed token whose
claims decode (under the configured secret) to the configured admin email as
subject and role "admin", with an expiry timestamp equal to the issuance time
plus 12 hours. -/
theorem login_token_claims (env : Env) (data : LoginRequest) (now : Nat)
    (h1 : pyLower data.email = pyLower (ADMIN_EMAIL env))
    (h2 : verify_password data.password (ADMIN_PASSWORD_HASH env) = true) :
    ∃ tok : Token, login env data now = .ok tok ∧ tok.token_type = "bearer" ∧
      jwt_decode tok.access_token (SECRET_KEY env) now =
        some ⟨some (ADMIN_EMAIL env), some "admin", now + 12 * 60 * 60⟩ := by
  refine ⟨{ access_token :=
    create_access_token env ⟨some (ADMIN_EMAIL env), some "admin"⟩ now }, ?_, rfl, ?_⟩
  · rw [login, if_neg]
    push_neg
    exact ⟨h1, by simp [h2]⟩
  · show jwt_decode (create_access_token env ⟨some (ADMIN_EMAIL env), some "admin"⟩ now)
      (SECRET_KEY env) now = _
    rw [create_access_token]
    simp only []
    rw [jwt_decode_jwt_encode]
    rw [if_neg (show ¬ (now + ACCESS_TOKEN_EXPIRE_MINUTES * 60 < now) from by omega)]
    have hexp : ACCESS_TOKEN_EXPIRE_MINUTES * 60 = 12 * 60 * 60 := by
      rw [ACCESS_TOKEN_EXPIRE_MINUTES]
    simp [hexp]

/-- C1 witness: the default configuration with the default credentials at
issuance time 0. -/
theorem login_token_claims_witness :
    ∃ tok : Token, login defaultEnv ⟨"admin@portfolio.dev", "admin123"⟩ 0 = .ok tok ∧
      tok.token_type = "bearer" ∧
      jwt_decode tok.access_token (SECRET_KEY defaultEnv) 0 =
        some ⟨some (ADMIN_EMAIL defaultEnv), some "admin", 0 + 12 * 60 * 60⟩ :=
  login_token_claims defaultEnv ⟨"admin@portfolio.dev", "admin123"⟩ 0 (by decide) (by decide)

/-- C2: A structurally valid token (it decodes under the configured secret at
the current time, hence its signature verifies and it is not expired) whose
subject is not the configured admin email or whose role is not "admin" makes
the Auth Gate fail with 403 Forbidden, which differs from the 401 used for
invalid tokens. -/
theorem auth_gate_wrong_identity (env : Env) (t : String) (c : Claims) (now : Nat)
    (hdec : jwt_decode t (SECRET_KEY env) now = some c)
    (hid : c.sub ≠ some (ADMIN_EMAIL env) ∨ c.role ≠ some "admin") :
    get_current_admin env (some ("Bearer " ++ t)) now = .error ⟨403, "Forbidden"⟩ ∧
      (⟨403, "Forbidden"⟩ : HTTPException) ≠ ⟨401, "Invalid token"⟩ := by
  constructor
  · rw [get_current_admin_bearer, hdec]
    simp [hid]
  · decide

/-- C2 witness: a token for a non-admin subject, signed with the default
secret and unexpired, is rejected 403 at time 0. -/
theorem auth_gate_wrong_identity_witness :
    get_current_admin defaultEnv
        (some ("Bearer " ++ jwt_encode ⟨some "someone@else.dev", some "admin", 100⟩
          "super-secret-key-change")) 0 = .error ⟨403, "Forbidden"⟩ ∧
      (⟨403, "Forbidden"⟩ : HTTPException) ≠ ⟨401, "Invalid token"⟩ :=
  auth_gate_wrong_identity defaultEnv
    (jwt_encode ⟨some "someone@else.dev", some "admin", 100⟩ "super-secret-key-change")
    ⟨some "someone@else.dev", some "admin", 100⟩ 0 (by decide) (by decide)

/-- C3: Token validation fails with the same 401 "Invalid token" error in all
three failure cases — token signed with a different secret, token that does
not parse (malformed claims), and expired token — so the caller cannot tell
them apart. -/
theorem auth_gate_invalid_token (env : Env) (now : Nat) :
    (∀ (c : Claims) (secret2 : String), secret2 ≠ SECRET_KEY env →
      get_current_admin env (some ("Bearer " ++ jwt_encode c secret2)) now =
        .error ⟨401, "Invalid token"⟩) ∧
    (∀ t : String, parseToken t.data = none →
      get_current_admin env (some ("Bearer " ++ t)) now =
        .error ⟨401, "Invalid token"⟩) ∧
    (∀ c : Claims, c.exp < now →
      get_current_admin env (some ("Bearer " ++ jwt_encode c (SECRET_KEY env))) now =
        .error ⟨401, "Invalid token"⟩) := by
  refine ⟨?_, ?_, ?_⟩
  · intro c secret2 hs
    rw [get_current_admin_bearer, jwt_decode_wrong_secret c secret2 (SECRET_KEY env) hs now]
  · intro t ht
    rw [get_current_admin_bearer]
    rw [show jwt_decode t (SECRET_KEY env) now = none from by rw [jwt_decode, ht]]
  · intro c hc
    rw [get_current_admin_bearer, jwt_decode_jwt_encode, if_pos hc]

/-- C3 witness: at time 5 — a wrong-secret token, the unparsable token
"garbage", and a token expired at time 1 all yield the same 401. -/
theorem auth_gate_invalid_token_witness :
    get_current_admin defaultEnv
        (some ("Bearer " ++ jwt_encode ⟨some "admin@portfolio.dev", some "admin", 100⟩
          "wrong-secret")) 5 = .error ⟨401, "Invalid token"⟩ ∧
      get_current_admin defaultEnv (some ("Bearer " ++ "garbage")) 5 =
        .error ⟨401, "Invalid token"⟩ ∧
      get_current_admin defaultEnv
        (some ("Bearer " ++ jwt_encode ⟨some "admin@portfolio.dev", some "admin", 1⟩
          "super-secret-key-change")) 5 = .error ⟨401, "Invalid token"⟩ :=
  ⟨(auth_gate_invalid_token defaultEnv 5).1 ⟨some "admin@portfolio.dev", some "admin", 100⟩
      "wrong-secret" (by decide),
   (auth_gate_invalid_token defaultEnv 5).2.1 "garbage" (by decide),
   (auth_gate_invalid_token defaultEnv 5).2.2 ⟨some "admin@portfolio.dev", some "admin", 1⟩
      (by decide)⟩

/-- C4: The Auth Gate answers 401 "Not authenticated" exactly when the
Authorization header is absent or does not start with the case-insensitive
literal "bearer " (in particular, the empty header is rejected, and every
casing of the scheme word passes this check on to token validation). -/
theorem auth_gate_scheme (env : Env) (authorization : Option String) (now : Nat) :
    get_current_admin env authorization now = .error ⟨401, "Not authenticated"⟩ ↔
      ¬ ∃ a, authorization = some a ∧ pyStartsWith (pyLower a) "bearer " = true := by
  cases authorization with
  | none => simp [get_current_admin]
  | some a =>
    by_cases h : a = "" ∨ ¬ pyStartsWith (pyLower a) "bearer " = true
    · rw [get_current_admin, if_pos h]
      simp only [true_iff]
      rintro ⟨a', ha', hsw⟩
      injection ha' with hh
      subst hh
      cases h with
      | inl he => rw [he] at hsw; exact absurd hsw (by decide)
      | inr hn => exact hn hsw
    · push_neg at h
      obtain ⟨hne, hsw⟩ := h
      rw [get_current_admin, if_neg (by push_neg; exact ⟨hne, hsw⟩)]
      dsimp only
      apply iff_of_false
      · rcases hdec : jwt_decode (splitAfterFirstSpace a) (SECRET_KEY env) now with _ | payload
        · simp
        · by_cases hid : payload.sub ≠ some (ADMIN_EMAIL env) ∨ payload.role ≠ some "admin"
          · simp [hid]
          · simp [hid]
      · exact fun hc => hc ⟨a, rfl, hsw⟩

theorem pwd_hash_inj {p q : String} (h : pwd_hash p = pwd_hash q) : p = q := by
  have hd := congrArg String.data h
  simp only [pwd_hash, String.data_append] at hd
  have hpq : p.data = q.data := List.append_cancel_left hd
  cases p
  cases q
  exact congrArg String.mk hpq

/-- C8: Login compares the submitted email to the configured admin email
case-insensitively and verifies the password against the stored hash; under
the default configuration the default credentials succeed with a bearer
token, and any wrong password for that email fails 401 Invalid credentials. -/
theorem login_default_config :
    (∀ (env : Env) (data : LoginRequest) (now : Nat),
      (∃ tok, login env data now = .ok tok) ↔
        (pyLower data.email = pyLower (ADMIN_EMAIL env) ∧
         verify_password data.password (ADMIN_PASSWORD_HASH env) = true)) ∧
    (∀ now : Nat, ∃ tok : Token,
      login defaultEnv ⟨"admin@portfolio.dev", "admin123"⟩ now = .ok tok ∧
        tok.token_type = "bearer") ∧
    (∀ (now : Nat) (p : String), p ≠ "admin123" →
      login defaultEnv ⟨"admin@portfolio.dev", p⟩ now =
        .error ⟨401, "Invalid credentials"⟩) := by
  refine ⟨?_, ?_, ?_⟩
  · intro env data now
    by_cases hcond : pyLower data.email ≠ pyLower (ADMIN_EMAIL env) ∨
        verify_password data.password (ADMIN_PASSWORD_HASH env) = false
    · rw [login, if_pos hcond]
      apply iff_of_false
      · rintro ⟨tok, htok⟩
        exact Except.noConfusion htok
      · rintro ⟨h1, h2⟩
        cases hcond with
        | inl hl => exact hl h1
        | inr hr => rw [h2] at hr; exact Bool.noConfusion hr
    · rw [login, if_neg hcond]
      push_neg at hcond
      exact iff_of_true ⟨_, rfl⟩ ⟨hcond.1, Bool.not_eq_false _ ▸ hcond.2⟩
  · intro now
    rw [login, if_neg (by decide)]
    exact ⟨_, rfl, rfl⟩
  · intro now p hp
    rw [login, if_pos]
    right
    simp only [verify_password]
    have : ADMIN_PASSWORD_HASH defaultEnv = pwd_hash "admin123" := rfl
    rw [this]
    exact decide_eq_false (fun h => hp (pwd_hash_inj h))

/-- C8 witness: the default scenario at time 0 — correct password succeeds,
the wrong password "letmein" fails 401. -/
theorem login_default_config_witness :
    (∃ tok : Token, login defaultEnv ⟨"admin@portfolio.dev", "admin123"⟩ 0 = .ok tok ∧
      tok.token_type = "bearer") ∧
    login defaultEnv ⟨"admin@portfolio.dev", "letmein"⟩ 0 =
      .error ⟨401, "Invalid credentials"⟩ :=
  ⟨login_default_config.2.1 0, login_default_config.2.2 0 "letmein" (by decide)⟩

/-- C9: Every normalized document carries an `id` field that is a string; a
stored document lacking `_id` entirely still gets `id` equal to the literal
string "None" (`str(None)`), not an omitted field and not null. -/
theorem normalize_id_string :
    (∀ d : Doc, ∃ s : String, dictGet (normalize d) "id" = some (Value.vStr s)) ∧
    (∀ d : Doc, dictGet d "_id" = none →
      dictGet (normalize d) "id" = some (Value.vStr "None")) := by
  constructor
  · intro d
    exact ⟨_, normalize_get_id d⟩
  · intro d h
    rw [normalize_get_id, h]
    rfl

/-- C9 witness: a document with only a title and no `_id` is answered with
`id = "None"`. -/
theorem normalize_id_string_witness :
    dictGet (normalize [("title", Value.vStr "x")]) "id" =
      some (Value.vStr "None") :=
  normalize_id_string.2 [("title", Value.vStr "x")] (by decide)

/-- C10: When the Auth Gate rejects a protected write (create, update or
delete) with any error — 401 or 403 — the handler returns that very error and
the store is unchanged: no store operation is performed. -/
theorem auth_failure_no_store_op (env : Env) (db : Option Store)
    (authorization : Option String) (now : Nat) (p : Project) (slug oid : String)
    (e : HTTPException)
    (h : get_current_admin env authorization now = .error e) :
    create_project env db authorization now p oid = (.error e, db) ∧
    update_project env db authorization now slug p = (.error e, db) ∧
    delete_project env db authorization now slug = (.error e, db) := by
  refine ⟨?_, ?_, ?_⟩ <;>
    simp [create_project, update_project, delete_project, h]

/-- C10 witness: a missing Authorization header leaves a one-collection store
untouched on all three write routes. -/
theorem auth_failure_no_store_op_witness :
    create_project defaultEnv (some ⟨[("project", [])]⟩) none 0
        { title := "t", slug := "s", summary := "m" } "cafe" =
      (.error ⟨401, "Not authenticated"⟩, some ⟨[("project", [])]⟩) ∧
    update_project defaultEnv (some ⟨[("project", [])]⟩) none 0 "s"
        { title := "t", slug := "s", summary := "m" } =
      (.error ⟨401, "Not authenticated"⟩, some ⟨[("project", [])]⟩) ∧
    delete_project defaultEnv (some ⟨[("project", [])]⟩) none 0 "s" =
      (.error ⟨401, "Not authenticated"⟩, some ⟨[("project", [])]⟩) :=
  auth_failure_no_store_op defaultEnv (some ⟨[("project", [])]⟩) none 0
    { title := "t", slug := "s", summary := "m" } "s" "cafe"
    ⟨401, "Not authenticated"⟩ rfl

theorem countKey_dictInsert_absent (d : Doc) (k : String) (v : Value)
    (h : dictGet d k = none) : countKey (dictInsert d k v) k = 1 := by
  induction d with
  | nil => simp [dictInsert, countKey]
  | cons kv d ih =>
    obtain ⟨k1, w⟩ := kv
    by_cases h1 : k1 = k
    · subst h1
      simp [dictGet] at h
    · simp only [dictGet, h1, if_false] at h
      simp only [dictInsert, h1, if_false]
      simp only [countKey, List.map_cons, List.count_cons] at ih ⊢
      simp [h1, ih h]

theorem model_dump_get_id (p : Project) : dictGet p.model_dump "id" = none := by
  simp [Project.model_dump, dictGet]

theorem model_dump_get_internal (p : Project) : dictGet p.model_dump "_id" = none := by
  simp [Project.model_dump, dictGet]

theorem model_dump_get_slug (p : Project) :
    dictGet p.model_dump "slug" = some (Value.vStr p.slug) := by
  simp [Project.model_dump, dictGet]

theorem getColl_setColl (st : Store) (name : String) (docs : List Doc) :
    getColl (setColl st name docs) name = docs := by
  simp [getColl, setColl, List.lookup]

/-- C5: Normalization renames the internal `_id` to a stringified `id`,
removes `_id`, and leaves every other field unchanged; consequently creating
a Project and fetching it by slug returns every submitted field unchanged
plus a non-empty `id` and no `_id` field. -/
theorem normalize_frame_and_roundtrip :
    (∀ (d : Doc) (k : String), k ≠ "id" → k ≠ "_id" →
      dictGet (normalize d) k = dictGet d k) ∧
    (∀ d : Doc, countKey d "_id" ≤ 1 → dictGet (normalize d) "_id" = none) ∧
    (∀ d : Doc, dictGet (normalize d) "id" =
      some (Value.vStr (pyStrOpt (dictGet d "_id")))) ∧
    (∀ (st : Store) (p : Project) (oid : String), oid ≠ "" →
      (∀ d ∈ getColl st "project",
        docMatches d [("slug", Value.vStr p.slug)] = false) →
      ∃ it : Doc,
        get_project (some (create_document st "project" p.model_dump oid).2)
          p.slug = .ok it ∧
        (∀ k v, dictGet p.model_dump k = some v → dictGet it k = some v) ∧
        dictGet it "id" = some (Value.vStr oid) ∧
        dictGet it "_id" = none) := by
  refine ⟨normalize_get_other, normalize_no_internal_id, normalize_get_id, ?_⟩
  intro st p oid hoid hnone
  set newdoc : Doc := dictInsert p.model_dump "_id" (Value.vOid oid) with hnew
  have hcoll : getColl (create_document st "project" p.model_dump oid).2 "project" =
      getColl st "project" ++ [newdoc] := by
    simp [create_document, getColl_setColl]
  have hmatch : docMatches newdoc [("slug", Value.vStr p.slug)] = true := by
    rw [hnew]
    have h1 : dictGet (dictInsert p.model_dump "_id" (Value.vOid oid)) "slug" =
        some (Value.vStr p.slug) := by
      rw [dictGet_dictInsert_ne p.model_dump "_id" "slug" (Value.vOid oid) (by decide)]
      exact model_dump_get_slug p
    simp [docMatches, h1]
  have hitems : get_documents (create_document st "project" p.model_dump oid).2
      "project" (some [("slug", Value.vStr p.slug)]) = [newdoc] := by
    rw [get_documents, hcoll, List.filter_append]
    rw [List.filter_eq_nil_iff.2 (by intro d hd; simp [hnone d hd])]
    simp [hmatch]
  refine ⟨normalize newdoc, ?_, ?_, ?_, ?_⟩
  · rw [get_project]
    simp only [hitems]
  · intro k v hk
    have hkid : k ≠ "id" := by
      intro h
      rw [h, model_dump_get_id] at hk
      exact Option.noConfusion hk
    have hkint : k ≠ "_id" := by
      intro h
      rw [h, model_dump_get_internal] at hk
      exact Option.noConfusion hk
    rw [normalize_get_other _ _ hkid hkint, hnew,
      dictGet_dictInsert_ne _ _ _ _ hkint]
    exact hk
  · rw [normalize_get_id, hnew, dictGet_dictInsert_self]
    rfl
  · apply normalize_no_internal_id
    rw [hnew]
    rw [countKey_dictInsert_absent _ _ _ (model_dump_get_internal p)]

/-- C5 witness: creating a minimal Project in an empty store and fetching it
by its slug. -/
theorem normalize_frame_and_roundtrip_witness :
    ∃ it : Doc,
      get_project (some (create_document ⟨[]⟩ "project"
        (Project.model_dump { title := "T", slug := "s1", summary := "M" })
        "cafebabe").2) "s1" = .ok it ∧
      (∀ k v, dictGet (Project.model_dump
        { title := "T", slug := "s1", summary := "M" }) k = some v →
          dictGet it k = some v) ∧
      dictGet it "id" = some (Value.vStr "cafebabe") ∧
      dictGet it "_id" = none :=
  normalize_frame_and_roundtrip.2.2.2 ⟨[]⟩
    { title := "T", slug := "s1", summary := "M" } "cafebabe" (by decide)
    (by intro d hd; simp [getColl] at hd)

/-- C6: `GET /api/posts` returns the normalized blog documents sorted by
`created_at` descending (a missing `created_at` counts as the current time),
truncated to at most 3: the result is a sorted prefix of a permutation of
the normalized collection whose members all have keys at least as large as
everything left out. -/
theorem list_posts_latest_three (st : Store) (now : Nat)
    (hwt : ∀ d ∈ getColl st "blogpost", isTimeOpt (dictGet d "created_at") = true) :
    ∃ rest : List Doc,
      (list_posts (some st) now ++ rest).Perm
        ((getColl st "blogpost").map normalize) ∧
      List.Sorted (fun a b => createdAtKey now b ≤ createdAtKey now a)
        (list_posts (some st) now) ∧
      (list_posts (some st) now).length = min 3 (getColl st "blogpost").length ∧
      (∀ a ∈ list_posts (some st) now, ∀ b ∈ rest,
        createdAtKey now b ≤ createdAtKey now a) := by
  clear hwt
  letI r : Doc → Doc → Prop := fun a b => createdAtKey now b ≤ createdAtKey now a
  letI : DecidableRel r := fun a b => Nat.decLe _ _
  haveI htot : IsTotal Doc r := ⟨fun a b => Nat.le_total _ _⟩
  haveI htrans : IsTrans Doc r := ⟨fun a b c hab hbc => Nat.le_trans hbc hab⟩
  have hlp : list_posts (some st) now =
      (List.insertionSort r ((getColl st "blogpost").map normalize)).take 3 := by
    rw [list_posts, get_documents]
  set l := List.insertionSort r ((getColl st "blogpost").map normalize) with hl
  have hsort : List.Sorted r l := List.sorted_insertionSort r _
  have hperm : l.Perm ((getColl st "blogpost").map normalize) :=
    List.perm_insertionSort r _
  refine ⟨l.drop 3, ?_, ?_, ?_, ?_⟩
  · rw [hlp, List.take_append_drop]
    exact hperm
  · rw [hlp]
    exact hsort.sublist (List.take_sublist 3 l)
  · rw [hlp, List.length_take, hperm.length_eq, List.length_map]
  · intro a ha b hb
    rw [hlp] at ha
    exact hsort.rel_of_mem_take_of_mem_drop ha hb

/-- C6 witness: five posts with distinct `created_at` values (10, 50, 30, 20,
40); the route returns exactly the three most recent, most recent first, and
the theorem's properties hold for this store. -/
theorem list_posts_latest_three_witness :
    list_posts (some ⟨[("blogpost",
      [[("_id", Value.vOid "a1"), ("slug", Value.vStr "post1"),
        ("created_at", Value.vTime 10)],
       [("_id", Value.vOid "a2"), ("slug", Value.vStr "post2"),
        ("created_at", Value.vTime 50)],
       [("_id", Value.vOid "a3"), ("slug", Value.vStr "post3"),
        ("created_at", Value.vTime 30)],
       [("_id", Value.vOid "a4"), ("slug", Value.vStr "post4"),
        ("created_at", Value.vTime 20)],
       [("_id", Value.vOid "a5"), ("slug", Value.vStr "post5"),
        ("created_at", Value.vTime 40)]])]⟩) 0 =
      [[("slug", Value.vStr "post2"), ("created_at", Value.vTime 50),
        ("id", Value.vStr "a2")],
       [("slug", Value.vStr "post5"), ("created_at", Value.vTime 40),
        ("id", Value.vStr "a5")],
       [("slug", Value.vStr "post3"), ("created_at", Value.vTime 30),
        ("id", Value.vStr "a3")]] ∧
    (∃ rest : List Doc,
      (list_posts (some ⟨[("blogpost",
        [[("_id", Value.vOid "a1"), ("slug", Value.vStr "post1"),
          ("created_at", Value.vTime 10)],
         [("_id", Value.vOid "a2"), ("slug", Value.vStr "post2"),
          ("created_at", Value.vTime 50)],
         [("_id", Value.vOid "a3"), ("slug", Value.vStr "post3"),
          ("created_at", Value.vTime 30)],
         [("_id", Value.vOid "a4"), ("slug", Value.vStr "post4"),
          ("created_at", Value.vTime 20)],
         [("_id", Value.vOid "a5"), ("slug", Value.vStr "post5"),
          ("created_at", Value.vTime 40)]])]⟩) 0 ++ rest).Perm
        ((getColl ⟨[("blogpost",
        [[("_id", Value.vOid "a1"), ("slug", Value.vStr "post1"),
          ("created_at", Value.vTime 10)],
         [("_id", Value.vOid "a2"), ("slug", Value.vStr "post2"),
          ("created_at", Value.vTime 50)],
         [("_id", Value.vOid "a3"), ("slug", Value.vStr "post3"),
          ("created_at", Value.vTime 30)],
         [("_id", Value.vOid "a4"), ("slug", Value.vStr "post4"),
          ("created_at", Value.vTime 20)],
         [("_id", Value.vOid "a5"), ("slug", Value.vStr "post5"),
          ("created_at", Value.vTime 40)]])]⟩ "blogpost").map normalize)) :=
  ⟨rfl,
   (list_posts_latest_three _ 0 (by decide)).elim fun rest h => ⟨rest, h.1⟩⟩

/-- C7 counterexample: with no backing store configured, `GET /api/projects`
does not fail with a 500 `StoreUnavailable`; it succeeds with the empty
list. -/
theorem list_projects_no_db_ok :
    list_projects none = .ok ([] : List Doc) ∧
      list_projects none ≠ .error ⟨500, "Database not available"⟩ :=
  ⟨rfl, fun h => Except.noConfusion h⟩

/-- C7 amended: with no backing store, the update and delete operations fail
with 500 "Database not available" (given a request passing the Auth Gate),
while the list endpoint returns the empty list and the get-by-slug endpoint
404; every failure surfaces directly as its status. -/
theorem no_db_behavior (env : Env) (authorization : Option String) (now : Nat)
    (slug : String) (p : Project)
    (h : ∃ a, get_current_admin env authorization now = .ok a) :
    list_projects none = .ok ([] : List Doc) ∧
    get_project none slug = .error ⟨404, "Not found"⟩ ∧
    update_project env none authorization now slug p =
      (.error ⟨500, "Database not available"⟩, none) ∧
    delete_project env none authorization now slug =
      (.error ⟨500, "Database not available"⟩, none) := by
  obtain ⟨a, ha⟩ := h
  refine ⟨rfl, rfl, ?_, ?_⟩ <;> simp [update_project, delete_project, ha]

/-- C7 amended witness: an authorized admin request at time 0 with no store —
update and delete answer 500, listing answers the empty list, get answers
404. -/
theorem no_db_behavior_witness :
    list_projects none = .ok ([] : List Doc) ∧
    get_project none "s1" = .error ⟨404, "Not found"⟩ ∧
    update_project defaultEnv none
      (some ("Bearer " ++ jwt_encode ⟨some "admin@portfolio.dev", some "admin", 100⟩
        "super-secret-key-change")) 0 "s1" { title := "T", slug := "s1", summary := "M" } =
      (.error ⟨500, "Database not available"⟩, none) ∧
    delete_project defaultEnv none
      (some ("Bearer " ++ jwt_encode ⟨some "admin@portfolio.dev", some "admin", 100⟩
        "super-secret-key-change")) 0 "s1" =
      (.error ⟨500, "Database not available"⟩, none) :=
  no_db_behavior defaultEnv
    (some ("Bearer " ++ jwt_encode ⟨some "admin@portfolio.dev", some "admin", 100⟩
      "super-secret-key-change")) 0 "s1" { title := "T", slug := "s1", summary := "M" }
    ⟨⟨some "admin@portfolio.dev", some "admin"⟩, rfl⟩

end Portfolio
